import Mathlib

/-!
Shallow embedding of the shader-program lifecycle of `src/shader_program.cc`
(namespace `wvu`).  GLuint handles are modelled as `Nat`; the `std::string*`
out-parameters (error logs, file sinks) are threaded explicitly as values; the
file system is an explicit map `String → Option String` (`none` = the path
cannot be opened).  The private helpers `CompileShader`, `CreateShaderProgram`
and `ReleaseShaderResources` are, in the source, unimplemented assignment stubs
(`// TASK: Implement me!`) that return `0` / do nothing; they are embedded
exactly as written.  Invocations of `ReleaseShaderResources` are recorded as an
event list so that call behaviour is observable in the pure embedding.
-/

namespace wvu

/-- Enumeration to select the shader types (`shader_program.cc`, lines 49-52). -/
inductive ShaderType where
  | VERTEX : ShaderType
  | FRAGMENT : ShaderType
deriving DecidableEq, Repr

/-- Modelled from the spec: the class declaration (`shader_program.h`) is not in
the repository; its data members are taken from the spec's data model (§3):
the two stage sources, the two stage handles, the program handle, and the
`created` flag.  Member names follow the `.cc` file's uses. -/
structure ShaderProgram where
  vertex_shader_src_ : String
  fragment_shader_src_ : String
  vertex_shader_ : Nat
  fragment_shader_ : Nat
  shader_program_id_ : Nat
  created_ : Bool
deriving DecidableEq, Repr

/-- Modelled from the spec: the constructor is in the missing header; per §3 a
fresh instance has empty sources, unset (zero) stage and program handles, and
`created == false` (`programHandle`: zero means "not created"). -/
def ShaderProgram.init : ShaderProgram :=
  { vertex_shader_src_ := ""
    fragment_shader_src_ := ""
    vertex_shader_ := 0
    fragment_shader_ := 0
    shader_program_id_ := 0
    created_ := false }

/-- Modelled from the spec: accessor declared in the missing header; §4.5:
"`shaderProgramId()`: accessor returning `programHandle` (0 if not created)". -/
def ShaderProgram.shader_program_id (p : ShaderProgram) : Nat :=
  p.shader_program_id_

/-- `CompileShader` (lines 58-63): the body is the assignment stub
`// TASK: Implement me!  return 0;` — it returns handle `0` and leaves the
info log untouched, for every source and stage. -/
def CompileShader (shader_src : String) (shader_type : ShaderType)
    (info_log : String) : Nat × String :=
  (0, info_log)

/-- `CreateShaderProgram` (lines 69-74): the body is the assignment stub
`// TASK: Implement me!  return 0;` — it returns program handle `0` and leaves
the info log untouched. -/
def CreateShaderProgram (vertex_shader : Nat) (fragment_shader : Nat)
    (info_log : String) : Nat × String :=
  (0, info_log)

/-- `ReleaseShaderResources` (lines 78-81): the body is the assignment stub
(no-op).  The embedding records the invocation as an event carrying the two
handle arguments, so that callers' release behaviour is observable. -/
def ReleaseShaderResources (vertex_shader : Nat) (fragment_shader : Nat) :
    List (Nat × Nat) :=
  [(vertex_shader, fragment_shader)]

/-- `LoadShaderFromFile` (lines 86-103): opens `filepath`; if it cannot be
opened, returns `false` leaving the sink unchanged; otherwise reads the whole
file into the sink in one read and returns `true`.  (The C++ null-sink check is
vacuous here: the class always passes the address of a member string.) -/
def LoadShaderFromFile (fs : String → Option String) (filepath : String)
    (loaded_file : String) : Bool × String :=
  match fs filepath with
  | none => (false, loaded_file)
  | some content => (true, content)

/-- `ShaderProgram::LoadVertexShaderFromString` (lines 107-111): stores the
text into `vertex_shader_src_` and returns `true`, unconditionally. -/
def ShaderProgram.LoadVertexShaderFromString (p : ShaderProgram)
    (vertex_shader_source : String) : ShaderProgram × Bool :=
  ({ p with vertex_shader_src_ := vertex_shader_source }, true)

/-- `ShaderProgram::LoadFragmentShaderFromString` (lines 113-117): stores the
text into `fragment_shader_src_` and returns `true`, unconditionally. -/
def ShaderProgram.LoadFragmentShaderFromString (p : ShaderProgram)
    (fragment_shader_source : String) : ShaderProgram × Bool :=
  ({ p with fragment_shader_src_ := fragment_shader_source }, true)

/-- `ShaderProgram::LoadVertexShaderFromFile` (lines 119-122): delegates to
`LoadShaderFromFile` with `&vertex_shader_src_` as the sink. -/
def ShaderProgram.LoadVertexShaderFromFile (fs : String → Option String)
    (p : ShaderProgram) (vertex_shader_path : String) : ShaderProgram × Bool :=
  let r := LoadShaderFromFile fs vertex_shader_path p.vertex_shader_src_
  ({ p with vertex_shader_src_ := r.2 }, r.1)

/-- `ShaderProgram::LoadFragmentShaderFromFile` (lines 124-127): delegates to
`LoadShaderFromFile` with `&fragment_shader_src_` as the sink. -/
def ShaderProgram.LoadFragmentShaderFromFile (fs : String → Option String)
    (p : ShaderProgram) (fragment_shader_path : String) : ShaderProgram × Bool :=
  let r := LoadShaderFromFile fs fragment_shader_path p.fragment_shader_src_
  ({ p with fragment_shader_src_ := r.2 }, r.1)

/-- `ShaderProgram::Create` (lines 129-135): as written in the source it is
`if (created_) return true; return false;` — it never invokes the compile or
link steps, never mutates the instance, and never touches the error log.
Result: (new state, error log after the call, returned bool). -/
def ShaderProgram.Create (p : ShaderProgram) (error_info_log : String) :
    ShaderProgram × String × Bool :=
  if p.created_ then (p, error_info_log, true) else (p, error_info_log, false)

/-- `ShaderProgram::BuildVertexShader` (lines 137-140): stores the result of
`CompileShader(vertex_shader_src_, VERTEX, info_log)` into `vertex_shader_`
and returns `vertex_shader_ != 0`. -/
def ShaderProgram.BuildVertexShader (p : ShaderProgram) (info_log : String) :
    ShaderProgram × String × Bool :=
  let c := CompileShader p.vertex_shader_src_ ShaderType.VERTEX info_log
  let p' := { p with vertex_shader_ := c.1 }
  (p', c.2, p'.vertex_shader_ != 0)

/-- `ShaderProgram::BuildFragmentShader` (lines 142-145): stores the result of
`CompileShader(fragment_shader_src_, FRAGMENT, info_log)` into
`fragment_shader_` and returns `fragment_shader_ != 0`. -/
def ShaderProgram.BuildFragmentShader (p : ShaderProgram) (info_log : String) :
    ShaderProgram × String × Bool :=
  let c := CompileShader p.fragment_shader_src_ ShaderType.FRAGMENT info_log
  let p' := { p with fragment_shader_ := c.1 }
  (p', c.2, p'.fragment_shader_ != 0)

/-- `ShaderProgram::LinkProgram` (lines 147-153): overwrites
`shader_program_id_` with `CreateShaderProgram(vertex_shader_,
fragment_shader_, info_log)`, then calls
`ReleaseShaderResources(vertex_shader_, fragment_shader_)` unconditionally,
and returns `shader_program_id_ != 0`.  Result: (new state, log, returned
bool, release events emitted). -/
def ShaderProgram.LinkProgram (p : ShaderProgram) (info_log : String) :
    ShaderProgram × String × Bool × List (Nat × Nat) :=
  let c := CreateShaderProgram p.vertex_shader_ p.fragment_shader_ info_log
  let p' := { p with shader_program_id_ := c.1 }
  let events := ReleaseShaderResources p'.vertex_shader_ p'.fragment_shader_
  (p', c.2, p'.shader_program_id_ != 0, events)

/-- One state-mutating operation of `ShaderProgram`, with arbitrary arguments
(the accessors do not change state and so induce no step). -/
inductive Step : ShaderProgram → ShaderProgram → Prop where
  | loadVStr (p : ShaderProgram) (s : String) :
      Step p (p.LoadVertexShaderFromString s).1
  | loadFStr (p : ShaderProgram) (s : String) :
      Step p (p.LoadFragmentShaderFromString s).1
  | loadVFile (p : ShaderProgram) (fs : String → Option String) (path : String) :
      Step p (ShaderProgram.LoadVertexShaderFromFile fs p path).1
  | loadFFile (p : ShaderProgram) (fs : String → Option String) (path : String) :
      Step p (ShaderProgram.LoadFragmentShaderFromFile fs p path).1
  | create (p : ShaderProgram) (log : String) :
      Step p (p.Create log).1
  | buildV (p : ShaderProgram) (log : String) :
      Step p (p.BuildVertexShader log).1
  | buildF (p : ShaderProgram) (log : String) :
      Step p (p.BuildFragmentShader log).1
  | link (p : ShaderProgram) (log : String) :
      Step p (p.LinkProgram log).1

/-- States reachable from the fresh instance by the operations. -/
inductive Reachable : ShaderProgram → Prop where
  | init : Reachable ShaderProgram.init
  | step {p q : ShaderProgram} : Reachable p → Step p q → Reachable q

/-- The spec's data-model invariant: `created == true` implies
`programHandle != 0`. -/
def Inv (p : ShaderProgram) : Prop :=
  p.created_ = true → p.shader_program_id_ ≠ 0

instance (p : ShaderProgram) : Decidable (Inv p) := by
  unfold Inv; infer_instance

/-- The vertex and fragment GLSL fixtures of `assignment_tests.cc`
(lines 62-79), loaded into a fresh instance exactly as the test
`ShaderProgram.CreateProgramFromValidShaderSources` does. -/
def testFixtureState : ShaderProgram :=
  ((ShaderProgram.init.LoadVertexShaderFromString
      "#version 330 core\nlayout (location = 0) in vec3 position;\n\nvoid main() \x7b\ngl_Position = vec4(position.x, position.y, position.z, 1.0f);\n\x7d\n").1.LoadFragmentShaderFromString
      "#version 330 core\nout vec4 color;\nvoid main() \x7b\ncolor = vec4(1.0f, 0.5f, 0.2f, 1.0f);\n\x7d\n").1

/-- The invalid-source fixture of `assignment_tests.cc` (lines 142-147): the
vertex fixture with garbage tokens appended, loaded into a fresh instance as
the test `ShaderProgram.CreateProgramFromInvalidShaderSources` does. -/
def badFixtureState : ShaderProgram :=
  ((ShaderProgram.init.LoadVertexShaderFromString
      "#version 330 core\nlayout (location = 0) in vec3 position;\n\nvoid main() \x7b\ngl_Position = vec4(position.x, position.y, position.z, 1.0f);\n\x7d\nasdasdjqw;rjdekl").1.LoadFragmentShaderFromString
      "#version 330 core\nlayout (location = 0) in vec3 position;\n\nvoid main() \x7b\ngl_Position = vec4(position.x, position.y, position.z, 1.0f);\n\x7d\nasdasdjqw;jdekl").1

/-- A state whose instance has `created_ = true` with a nonzero program handle
(the configuration the spec's invariant describes for a successfully built
program); used to probe the operations on an already-created instance. -/
def createdDemo : ShaderProgram :=
  { vertex_shader_src_ := "old"
    fragment_shader_src_ := ""
    vertex_shader_ := 7
    fragment_shader_ := 8
    shader_program_id_ := 3
    created_ := true }

/-- A concrete file system with exactly one readable path. -/
def demoFs : String → Option String :=
  fun path => if path = "shader.glsl" then some "void main() \x7b\x7d" else none

/-- Every operation leaves the `created_` flag unchanged: no operation in
`shader_program.cc` ever assigns to it. -/
theorem Step.created_eq {p q : ShaderProgram} (h : Step p q) :
    q.created_ = p.created_ := by
  cases h with
  | loadVStr s => rfl
  | loadFStr s => rfl
  | loadVFile fs path => rfl
  | loadFFile fs path => rfl
  | create log =>
      unfold ShaderProgram.Create
      by_cases hc : p.created_ <;> simp [hc]
  | buildV log => rfl
  | buildF log => rfl
  | link log => rfl

/-- In every reachable state the `created_` flag is still `false`: the fresh
instance starts with it `false` and no operation sets it. -/
theorem reachable_created_false {p : ShaderProgram} (h : Reachable p) :
    p.created_ = false := by
  induction h with
  | init => rfl
  | step _ hs ih => rw [hs.created_eq, ih]

end wvu

/-- C1: the claim says that with sources the external compiler and linker would
accept, `Create` returns success, `shader_program_id() > 0`, and the error log
is left empty.  The code under test diverges: `Create` (lines 129-135) never
invokes the compile or link steps, so on the very fixture state of the
repository's own test `ShaderProgram.CreateProgramFromValidShaderSources`
(which expects `Create` to return `true` and `shader_program_id() > 0`) it
returns `false` and leaves the id at 0. -/
theorem C1_create_fails_on_valid_fixture :
    (wvu.testFixtureState.Create "").2.2 = false ∧
    (wvu.testFixtureState.Create "").1.shader_program_id = 0 ∧
    (wvu.testFixtureState.Create "").2.1 = "" := by
  decide

/-- C2: the claim says a `Create` on sources that fail to compile returns
failure AND appends the compiler diagnostic, leaving the log non-empty.  The
code diverges on the log: on the invalid-source fixture state of the test
`ShaderProgram.CreateProgramFromInvalidShaderSources` (which expects
`error_info_log.size() > 0`), `Create` returns `false` but leaves the error
log completely empty (it never calls the compiler); id and `created_` do stay
at 0/false. -/
theorem C2_create_leaves_log_empty_on_bad_fixture :
    (wvu.badFixtureState.Create "").2.2 = false ∧
    (wvu.badFixtureState.Create "").2.1 = "" ∧
    (wvu.badFixtureState.Create "").1.created_ = false ∧
    (wvu.badFixtureState.Create "").1.shader_program_id = 0 := by
  decide

/-- C3: the claim describes the successful-link epilogue of `Create` (release
stage handles, set `created`, store a nonzero handle, return success).  In the
code no `Create` call ever reaches a link at all, and no link ever succeeds:
running the full pipeline (`BuildVertexShader`, `BuildFragmentShader`,
`LinkProgram`) on the valid fixture yields a failed link with program handle 0
and `created_` still `false`, and `Create` itself returns `false` without
invoking any of it. -/
theorem C3_pipeline_never_reaches_successful_link :
    ((((wvu.testFixtureState.BuildVertexShader "").1.BuildFragmentShader
        "").1.LinkProgram "").2.2.1 = false) ∧
    ((((wvu.testFixtureState.BuildVertexShader "").1.BuildFragmentShader
        "").1.LinkProgram "").1.shader_program_id_ = 0) ∧
    ((((wvu.testFixtureState.BuildVertexShader "").1.BuildFragmentShader
        "").1.LinkProgram "").1.created_ = false) ∧
    (wvu.testFixtureState.Create "").2.2 = false := by
  decide

/-- C4: `Create` is idempotent after success: if a `Create` call on `p`
returned `true`, a second `Create` on the resulting instance also returns
`true` and `shader_program_id()` is unchanged (the code returns immediately on
`created_` and never mutates the instance). -/
theorem C4_create_idempotent_after_success (p : wvu.ShaderProgram)
    (log1 log2 : String) (h : (p.Create log1).2.2 = true) :
    ((p.Create log1).1.Create log2).2.2 = true ∧
    ((p.Create log1).1.Create log2).1.shader_program_id =
      p.shader_program_id := by
  by_cases hc : p.created_ <;>
    simp [wvu.ShaderProgram.Create, hc] at h ⊢

/-- Witness for C4 at a concrete already-created instance. -/
theorem C4_witness :
    ((wvu.createdDemo.Create "a").1.Create "b").2.2 = true ∧
    ((wvu.createdDemo.Create "a").1.Create "b").1.shader_program_id =
      wvu.createdDemo.shader_program_id :=
  C4_create_idempotent_after_success wvu.createdDemo "a" "b" (by decide)

/-- C5 counterexample: the claim says the invariant `created = true →
programHandle ≠ 0` is preserved by EVERY operation, `LinkProgram` included.
It is not: on an instance satisfying the invariant (`created_ = true`,
handle 3), `LinkProgram` overwrites the program handle with the link result 0
while leaving `created_ = true`, so the invariant fails afterwards. -/
theorem C5_counterexample_link_breaks_invariant :
    wvu.Inv wvu.createdDemo ∧
    ¬ wvu.Inv (wvu.createdDemo.LinkProgram "").1 := by
  decide

/-- C5 amended: the invariant holds in the initial state, is preserved by the
source loads, `Create`, `BuildVertexShader` and `BuildFragmentShader` (and
trivially by the state-independent accessors), and holds in every state
reachable from the initial state by the operations; `LinkProgram` alone does
not preserve it on arbitrary states. -/
theorem C5_invariant_init_ops_reachable :
    wvu.Inv wvu.ShaderProgram.init ∧
    (∀ p : wvu.ShaderProgram, ∀ s, wvu.Inv p →
      wvu.Inv (p.LoadVertexShaderFromString s).1) ∧
    (∀ p : wvu.ShaderProgram, ∀ s, wvu.Inv p →
      wvu.Inv (p.LoadFragmentShaderFromString s).1) ∧
    (∀ fs, ∀ p : wvu.ShaderProgram, ∀ path, wvu.Inv p →
      wvu.Inv (wvu.ShaderProgram.LoadVertexShaderFromFile fs p path).1) ∧
    (∀ fs, ∀ p : wvu.ShaderProgram, ∀ path, wvu.Inv p →
      wvu.Inv (wvu.ShaderProgram.LoadFragmentShaderFromFile fs p path).1) ∧
    (∀ p : wvu.ShaderProgram, ∀ log, wvu.Inv p →
      wvu.Inv (p.Create log).1) ∧
    (∀ p : wvu.ShaderProgram, ∀ log, wvu.Inv p →
      wvu.Inv (p.BuildVertexShader log).1) ∧
    (∀ p : wvu.ShaderProgram, ∀ log, wvu.Inv p →
      wvu.Inv (p.BuildFragmentShader log).1) ∧
    (∀ p : wvu.ShaderProgram, wvu.Reachable p → wvu.Inv p) := by
  refine ⟨?_, ?_, ?_, ?_, ?_, ?_, ?_, ?_, ?_⟩
  · intro h
    cases h
  · intro p s hp
    exact hp
  · intro p s hp
    exact hp
  · intro fs p path hp
    exact hp
  · intro fs p path hp
    exact hp
  · intro p log hp
    unfold wvu.ShaderProgram.Create
    by_cases hc : p.created_ <;> simp [hc] <;> exact hp
  · intro p log hp
    exact hp
  · intro p log hp
    exact hp
  · intro p hr
    intro hc
    rw [wvu.reachable_created_false hr] at hc
    cases hc

/-- Witness for C5 at concrete states: the invariant instance at the initial
state (via reachability) and at the initial state after a load. -/
theorem C5_witness :
    wvu.Inv wvu.ShaderProgram.init ∧
    wvu.Inv (wvu.ShaderProgram.init.LoadVertexShaderFromString "v").1 :=
  ⟨C5_invariant_init_ops_reachable.2.2.2.2.2.2.2.2
      wvu.ShaderProgram.init wvu.Reachable.init,
   C5_invariant_init_ops_reachable.2.1
      wvu.ShaderProgram.init "v" (by decide)⟩

/-- C6 counterexample: the claim says that on an instance with
`created_ = true` the string loads fail (`ProgramAlreadyBuilt`) and do not
mutate the stored source.  The code has no such check: on an already-created
instance (`created_ = true`), `LoadVertexShaderFromString` returns `true` and
overwrites the stored vertex source. -/
theorem C6_counterexample_load_ignores_created :
    wvu.createdDemo.created_ = true ∧
    (wvu.createdDemo.LoadVertexShaderFromString "new").2 = true ∧
    (wvu.createdDemo.LoadVertexShaderFromString "new").1.vertex_shader_src_ =
      "new" := by
  decide

/-- C6 amended: for every text input and every instance state,
`LoadVertexShaderFromString` (resp. `LoadFragmentShaderFromString`) stores the
text verbatim as that stage's source and returns success, regardless of the
`created_` flag (the code performs no already-built check). -/
theorem C6_load_from_string_stores_verbatim (p : wvu.ShaderProgram)
    (s : String) :
    p.LoadVertexShaderFromString s =
      ({ p with vertex_shader_src_ := s }, true) ∧
    p.LoadFragmentShaderFromString s =
      ({ p with fragment_shader_src_ := s }, true) :=
  ⟨rfl, rfl⟩

/-- C7: for every path the file system cannot open, the file loads return
failure and leave the instance (in particular that stage's stored source)
unchanged; for every path that opens with content `c`, they store `c` as that
stage's source and return success. -/
theorem C7_load_from_file_behaviour (fs : String → Option String)
    (p : wvu.ShaderProgram) (path : String) :
    (fs path = none →
      wvu.ShaderProgram.LoadVertexShaderFromFile fs p path = (p, false) ∧
      wvu.ShaderProgram.LoadFragmentShaderFromFile fs p path = (p, false)) ∧
    (∀ c, fs path = some c →
      wvu.ShaderProgram.LoadVertexShaderFromFile fs p path =
        ({ p with vertex_shader_src_ := c }, true) ∧
      wvu.ShaderProgram.LoadFragmentShaderFromFile fs p path =
        ({ p with fragment_shader_src_ := c }, true)) := by
  constructor
  · intro hn
    unfold wvu.ShaderProgram.LoadVertexShaderFromFile
      wvu.ShaderProgram.LoadFragmentShaderFromFile wvu.LoadShaderFromFile
    rw [hn]
    exact ⟨rfl, rfl⟩
  · intro c hc
    unfold wvu.ShaderProgram.LoadVertexShaderFromFile
      wvu.ShaderProgram.LoadFragmentShaderFromFile wvu.LoadShaderFromFile
    rw [hc]
    exact ⟨rfl, rfl⟩

/-- Witness for C7 on a concrete file system: an unreadable path fails and
leaves the fresh instance unchanged, a readable path stores its content. -/
theorem C7_witness :
    wvu.ShaderProgram.LoadVertexShaderFromFile wvu.demoFs
      wvu.ShaderProgram.init "missing.glsl" = (wvu.ShaderProgram.init, false) ∧
    wvu.ShaderProgram.LoadVertexShaderFromFile wvu.demoFs
      wvu.ShaderProgram.init "shader.glsl" =
      ({ wvu.ShaderProgram.init with
          vertex_shader_src_ := "void main() \x7b\x7d" }, true) :=
  ⟨((C7_load_from_file_behaviour wvu.demoFs wvu.ShaderProgram.init
      "missing.glsl").1 (by decide)).1,
   ((C7_load_from_file_behaviour wvu.demoFs wvu.ShaderProgram.init
      "shader.glsl").2 "void main() \x7b\x7d" (by decide)).1⟩

/-- C8: `BuildVertexShader` (resp. `BuildFragmentShader`) stores the result of
`CompileShader` on the corresponding stage source into that stage's handle and
returns success exactly when the stored handle is nonzero; the compile
primitive, the unimplemented stub, returns the zero (failure) handle on every
input. -/
theorem C8_build_stores_compile_result (p : wvu.ShaderProgram)
    (log : String) :
    ((p.BuildVertexShader log).1.vertex_shader_ =
        (wvu.CompileShader p.vertex_shader_src_ wvu.ShaderType.VERTEX log).1 ∧
      ((p.BuildVertexShader log).2.2 = true ↔
        (p.BuildVertexShader log).1.vertex_shader_ ≠ 0)) ∧
    ((p.BuildFragmentShader log).1.fragment_shader_ =
        (wvu.CompileShader p.fragment_shader_src_ wvu.ShaderType.FRAGMENT
          log).1 ∧
      ((p.BuildFragmentShader log).2.2 = true ↔
        (p.BuildFragmentShader log).1.fragment_shader_ ≠ 0)) ∧
    (∀ src ty l, wvu.CompileShader src ty l = (0, l)) := by
  refine ⟨⟨rfl, ?_⟩, ⟨rfl, ?_⟩, fun src ty l => rfl⟩ <;>
    simp [wvu.ShaderProgram.BuildVertexShader,
      wvu.ShaderProgram.BuildFragmentShader, wvu.CompileShader]

/-- C9: loading a vertex source (from string or file) changes nothing but the
vertex source field, and loading a fragment source changes nothing but the
fragment source field, for every input, file system and instance state; none of
the four loads touches the stage handles, the program handle or `created_`. -/
theorem C9_load_frame (p : wvu.ShaderProgram) (s : String)
    (fs : String → Option String) (path : String) :
    ((p.LoadVertexShaderFromString s).1.fragment_shader_src_ =
        p.fragment_shader_src_ ∧
      (p.LoadVertexShaderFromString s).1.vertex_shader_ = p.vertex_shader_ ∧
      (p.LoadVertexShaderFromString s).1.fragment_shader_ =
        p.fragment_shader_ ∧
      (p.LoadVertexShaderFromString s).1.shader_program_id_ =
        p.shader_program_id_ ∧
      (p.LoadVertexShaderFromString s).1.created_ = p.created_) ∧
    ((p.LoadFragmentShaderFromString s).1.vertex_shader_src_ =
        p.vertex_shader_src_ ∧
      (p.LoadFragmentShaderFromString s).1.vertex_shader_ =
        p.vertex_shader_ ∧
      (p.LoadFragmentShaderFromString s).1.fragment_shader_ =
        p.fragment_shader_ ∧
      (p.LoadFragmentShaderFromString s).1.shader_program_id_ =
        p.shader_program_id_ ∧
      (p.LoadFragmentShaderFromString s).1.created_ = p.created_) ∧
    ((wvu.ShaderProgram.LoadVertexShaderFromFile fs p path).1.fragment_shader_src_ =
        p.fragment_shader_src_ ∧
      (wvu.ShaderProgram.LoadVertexShaderFromFile fs p path).1.vertex_shader_ =
        p.vertex_shader_ ∧
      (wvu.ShaderProgram.LoadVertexShaderFromFile fs p path).1.fragment_shader_ =
        p.fragment_shader_ ∧
      (wvu.ShaderProgram.LoadVertexShaderFromFile fs p path).1.shader_program_id_ =
        p.shader_program_id_ ∧
      (wvu.ShaderProgram.LoadVertexShaderFromFile fs p path).1.created_ =
        p.created_) ∧
    ((wvu.ShaderProgram.LoadFragmentShaderFromFile fs p path).1.vertex_shader_src_ =
        p.vertex_shader_src_ ∧
      (wvu.ShaderProgram.LoadFragmentShaderFromFile fs p path).1.vertex_shader_ =
        p.vertex_shader_ ∧
      (wvu.ShaderProgram.LoadFragmentShaderFromFile fs p path).1.fragment_shader_ =
        p.fragment_shader_ ∧
      (wvu.ShaderProgram.LoadFragmentShaderFromFile fs p path).1.shader_program_id_ =
        p.shader_program_id_ ∧
      (wvu.ShaderProgram.LoadFragmentShaderFromFile fs p path).1.created_ =
        p.created_) :=
  ⟨⟨rfl, rfl, rfl, rfl, rfl⟩, ⟨rfl, rfl, rfl, rfl, rfl⟩,
   ⟨rfl, rfl, rfl, rfl, rfl⟩, ⟨rfl, rfl, rfl, rfl, rfl⟩⟩

/-- C10: `LinkProgram` unconditionally overwrites `shader_program_id_` with
the result of `CreateShaderProgram` — which, the link step being the
unimplemented stub, is 0, so any previously stored nonzero handle is replaced
by zero — emits exactly one `ReleaseShaderResources` invocation on both stage
handles regardless of the link outcome, and leaves both source strings and
`created_` untouched. -/
theorem C10_link_overwrites_and_releases (p : wvu.ShaderProgram)
    (log : String) :
    (p.LinkProgram log).1.shader_program_id_ =
      (wvu.CreateShaderProgram p.vertex_shader_ p.fragment_shader_ log).1 ∧
    (p.LinkProgram log).1.shader_program_id_ = 0 ∧
    (p.LinkProgram log).2.2.2 =
      wvu.ReleaseShaderResources p.vertex_shader_ p.fragment_shader_ ∧
    (p.LinkProgram log).1.vertex_shader_src_ = p.vertex_shader_src_ ∧
    (p.LinkProgram log).1.fragment_shader_src_ = p.fragment_shader_src_ ∧
    (p.LinkProgram log).1.vertex_shader_ = p.vertex_shader_ ∧
    (p.LinkProgram log).1.fragment_shader_ = p.fragment_shader_ ∧
    (p.LinkProgram log).1.created_ = p.created_ :=
  ⟨rfl, rfl, rfl, rfl, rfl, rfl, rfl, rfl⟩
